import Mathlib

/-!
# coyim: XMPP dialer and in-band registration

A shallow embedding of `xmpp/dialer.go` and `xmpp/register.go`.

* Go strings are Lean `String`s.  The only bytes the code inspects are the
  ASCII characters `@` and `:`, so splitting on characters and on bytes agree.
* A Go function that returns an `error` (possibly next to a value) returns a
  `Res`: `ok` for a nil error, `err` for a non-nil error, `panic` for a
  run-time panic (an index out of range).
* The transport is a `World`: the outcomes of the `DecodeElement` calls still
  to come on `c.in`, and the trace of the effects performed so far (writes,
  `DecodeElement` calls, `go` statements and the assignment of `c.jid`).
* Functions, types and constants of the package that live in other files are
  the fields of an `Env`.
-/

namespace Coyim

/-! ## Errors and results -/

/-- Go `error` values. The three package-level sentinels of `register.go` are
values of their own: `errors.New` at a call site makes a fresh value that is
not equal to a sentinel even when the message is the same. -/
inductive GoError where
  | ErrUsernameConlict
  | ErrMissingRequiredRegistrationInfo
  | ErrRegistrationFailed
  /-- The value of `errors.New(msg)` evaluated inside a function body. -/
  | new (msg : String)
  /-- An error value handed over unchanged from a collaborator. -/
  | passed (msg : String)
  deriving DecidableEq, Repr

/-- The method `Error()` of an error value. -/
def GoError.Error : GoError → String
  | .ErrUsernameConlict => "xmpp: the username is not available for registration"
  | .ErrMissingRequiredRegistrationInfo => "xmpp: missing required registration information"
  | .ErrRegistrationFailed => "xmpp: account creation failed"
  | .new msg => msg
  | .passed msg => msg

/-- Outcome of a Go call: normal return with a nil error, normal return with a
non-nil error, or a run-time panic that unwinds the goroutine. -/
inductive Res (α : Type) where
  | ok (a : α)
  | err (e : GoError)
  | panic (msg : String)
  deriving DecidableEq, Repr

/-- The call returned normally with a non-nil error. -/
def Res.isErr {α : Type} : Res α → Bool
  | .err _ => true
  | _ => false

/-- The call returned normally with a nil error. -/
def Res.isOk {α : Type} : Res α → Bool
  | .ok _ => true
  | _ => false

/-! ## Data model -/

/-- The form-handling capability `FormCallback`; only `processForm` calls it,
so it is an uninterpreted token here. -/
structure FormCallback where
  id : Nat
  deriving DecidableEq, Repr

/-- The fields of `Config` that the two files read or write. -/
structure Config where
  TrustedAddress : Bool
  CreateCallback : Option FormCallback
  deriving DecidableEq, Repr

/-- The type `inBandRegistration` of `register.go`. -/
structure inBandRegistration where
  XMLName : String
  deriving DecidableEq, Repr

/-- The fields of the stream features (`c.features`) that the two files read;
a nil pointer is `none`. -/
structure streamFeatures where
  InBandRegistration : Option inBandRegistration
  Session : Option String
  deriving DecidableEq, Repr

/-- The fields of `Conn` that the two files read or write. The streams `c.in`,
`c.out` and `c.rawOut` are the `World`. -/
structure Conn where
  config : Config
  features : streamFeatures
  jid : String
  deriving DecidableEq, Repr

/-- The type `Dialer` (the proxy field plays no part in the two files beyond
`newTCPConn`). -/
structure Dialer where
  JID : String
  Password : String
  ServerAddress : String
  Config : Config
  deriving DecidableEq, Repr

/-- The `Error` member of `ClientIQ`. -/
structure ClientError where
  Code : String
  deriving DecidableEq, Repr

/-- The `Bind` member of `ClientIQ`. -/
structure bindBind where
  Jid : String
  deriving DecidableEq, Repr

/-- The fields of `ClientIQ` that the two files read; `Typ` is the Go field
`Type`, `Query` the raw bytes of the payload. -/
structure ClientIQ where
  Typ : String
  Error : ClientError
  Bind : bindBind
  Query : String
  deriving DecidableEq, Repr

/-- The zero value of `ClientIQ`, as made by `var iq ClientIQ`. -/
def ClientIQ.zero : ClientIQ :=
  ⟨"", ⟨""⟩, ⟨""⟩, ""⟩

/-- The part of `Form` that `createAccount` reads (`Typ` is the Go field
`Type`), with the rest of the form kept as uninterpreted content. -/
structure Form where
  Typ : String
  content : String
  deriving DecidableEq, Repr

/-- The type `bobData`, kept as uninterpreted content. -/
structure bobData where
  content : String
  deriving DecidableEq, Repr

/-- The type `RegisterQuery` of `register.go`; a nil pointer is `none`. -/
structure RegisterQuery where
  Username : Option String
  Password : Option String
  Form : Form
  Datas : List bobData
  deriving DecidableEq, Repr

/-! ## The transport -/

/-- The writers the two files write to. -/
inductive Sink where
  /-- The writer `c.out`. -/
  | out
  /-- The writer `c.rawOut`. -/
  | rawOut
  /-- The writer `c.config.getLog()`. -/
  | log
  deriving DecidableEq, Repr

/-- The background tasks started with a `go` statement. -/
inductive Goroutine where
  | watchKeepAlive
  | watchPings
  deriving DecidableEq, Repr

/-- Observable effects, in program order. -/
inductive Event where
  /-- Bytes handed to a writer (`fmt.Fprintf`, `io.WriteString`, an encoder). -/
  | write (s : Sink) (data : String)
  /-- One call of `c.in.DecodeElement`. -/
  | decode
  /-- One `go` statement. -/
  | go (t : Goroutine)
  /-- The assignment `c.jid = ...` of `setupStream`. -/
  | setJid (jid : String)
  deriving DecidableEq, Repr

/-- One pending `DecodeElement(&iq, nil)` on `c.in`: from the value the target
variable holds before the call, either the error message (`err.Error()`) or
the value it holds after. -/
abbrev DecodeStep := ClientIQ → Except String ClientIQ

/-- The transport as the code sees it. -/
structure World where
  input : List DecodeStep
  trace : List Event

/-- Append an event to the trace. -/
def World.emit (w : World) (e : Event) : World :=
  { w with trace := w.trace ++ [e] }

/-- What the `n`-th pending `DecodeElement` makes of the target value `iq`; at
the end of the stream the decoder reports `EOF`. -/
def World.reply (w : World) (n : Nat) (iq : ClientIQ) : Except String ClientIQ :=
  match w.input[n]? with
  | none => .error "EOF"
  | some f => f iq

/-- The call `c.in.DecodeElement(&iq, nil)`: the outcome of the first pending
decode, which is consumed. -/
def DecodeElement (iq : ClientIQ) (w : World) : Except String ClientIQ × World :=
  (w.reply 0 iq, { input := w.input.tail, trace := w.trace ++ [.decode] })

/-- Functions and constants of the package defined outside the two files. -/
structure Env where
  NsBind : String
  NsSession : String
  /-- The constructor `newConn()`. -/
  newConn : Conn
  /-- The method `d.newTCPConn()`. -/
  newTCPConn : Dialer → World → Res Unit × World
  /-- The method `c.sendInitialStreamHeader(originDomain)`. -/
  sendInitialStreamHeader : String → Conn → World → Res Conn × World
  /-- The method `d.negotiateSTARTTLS(c, conn)`. -/
  negotiateSTARTTLS : Dialer → Conn → World → Res Conn × World
  /-- The method `d.negotiateSASL(c)`. -/
  negotiateSASL : Dialer → Conn → World → Res Conn × World
  /-- The function `processForm(form, datas, callback)`: the reply form
  (possibly nil) and the error (possibly nil). -/
  processForm : Form → List bobData → FormCallback → Option Form × Option GoError
  /-- The call `xml.NewEncoder(c.rawOut).Encode(reply)`: the bytes that
  reached `c.rawOut` and the error (possibly nil). -/
  Encode : Option Form → String × Option GoError
  /-- The call `xml.NewDecoder(bytes.NewBuffer(iq.Query)).Decode(&register)`. -/
  decodeRegister : String → Except GoError RegisterQuery

/-! ## `dialer.go` -/

/-- The first `'@'` of a byte string cuts it in two. -/
def cutAt (sep : Char) : List Char → Option (List Char × List Char)
  | [] => none
  | c :: cs =>
    if c = sep then some ([], cs)
    else match cutAt sep cs with
      | none => none
      | some (a, b) => some (c :: a, b)

/-- The call `strings.SplitN(s, sep, 2)` for a one-byte separator: the whole
string when the separator is absent, else what precedes and what follows its
first occurrence. -/
def SplitN2 (s : String) (sep : Char) : List String :=
  match cutAt sep s.data with
  | none => [s]
  | some (a, b) => [String.mk a, String.mk b]

/-- The index expression `parts[i]`. -/
def index (parts : List String) (i : Nat) : Res String :=
  match parts[i]? with
  | some p => .ok p
  | none => .panic "runtime error: index out of range"

/-- The function `net.JoinHostPort` of the Go standard library (as in its
current releases): a host with a colon is taken for an IPv6 literal and put in
square brackets. -/
def JoinHostPort (host port : String) : String :=
  if ':' ∈ host.data then "[" ++ host ++ "]:" ++ port else host ++ ":" ++ port

def Dialer.hasCustomServer (d : Dialer) : Bool :=
  d.ServerAddress ≠ ""

def Dialer.getJIDLocalpart (d : Dialer) : Res String :=
  index (SplitN2 d.JID '@') 0

def Dialer.getJIDDomainpart (d : Dialer) : Res String :=
  index (SplitN2 d.JID '@') 1

def Dialer.getFallbackServer (d : Dialer) : Res String :=
  match d.getJIDDomainpart with
  | .ok dom => .ok (JoinHostPort dom "5222")
  | .err e => .err e
  | .panic m => .panic m

def Dialer.GetServer (d : Dialer) : Res String :=
  if d.hasCustomServer then .ok d.ServerAddress else d.getFallbackServer

/-! ## `register.go` -/

/-- Lines 84 to 102 of `createAccount`: await the final reply and map it. -/
def awaitFinalReply (w : World) : Res Unit × World :=
  match DecodeElement ClientIQ.zero w with
  | (.error e, w) => (.err (.new ("unmarshal <iq>: " ++ e)), w)
  | (.ok iq2, w) =>
    if iq2.Typ = "error" then
      if iq2.Error.Code = "409" then (.err .ErrUsernameConlict, w)
      else if iq2.Error.Code = "406" then (.err .ErrMissingRequiredRegistrationInfo, w)
      else (.err .ErrRegistrationFailed, w)
    else (.ok (), w)

def Conn.createAccount (x : Env) (c : Conn) (user password : String) (w : World) :
    Res Unit × World :=
  match c.config.CreateCallback with
  | none => (.ok (), w)
  | some callback =>
    let w := w.emit (.write .log "Attempting to create account\n")
    let w := w.emit (.write .out "<iq type='get' id='create_1'><query xmlns='jabber:iq:register'/></iq>")
    match DecodeElement ClientIQ.zero w with
    | (.error e, w) => (.err (.new ("unmarshal <iq>: " ++ e)), w)
    | (.ok iq, w) =>
      if iq.Typ ≠ "result" then (.err (.new "xmpp: account creation failed"), w)
      else match x.decodeRegister iq.Query with
        | .error e => (.err e, w)
        | .ok register =>
          if register.Form.Typ.utf8ByteSize > 0 then
            -- the error of processForm is assigned to err and overwritten below
            let reply := (x.processForm register.Form register.Datas callback).1
            let w := w.emit (.write .rawOut "<iq type='set' id='create_2'><query xmlns='jabber:iq:register'>")
            match x.Encode reply with
            | (bytes, some e) => (.err e, w.emit (.write .rawOut bytes))
            | (bytes, none) =>
              let w := w.emit (.write .rawOut bytes)
              let w := w.emit (.write .rawOut "</query></iq>")
              awaitFinalReply w
          else if register.Username.isSome && register.Password.isSome then
            let w := w.emit (.write .rawOut
              ("<iq type='set' id='create_2'><query xmlns='jabber:iq:register'><username>"
                ++ user ++ "</username><password>" ++ password ++ "</password></query></iq>"))
            awaitFinalReply w
          else awaitFinalReply w

def Dialer.negotiateInBandRegistration (x : Env) (d : Dialer) (c : Conn) (w : World) :
    Res Unit × World :=
  match c.features.InBandRegistration with
  | none => (.ok (), w)
  | some _ =>
    match d.getJIDLocalpart with
    | .panic m => (.panic m, w)
    | .err e => (.err e, w)
    | .ok user =>
      let password := d.Password
      c.createAccount x user password w

/-! ## `dialer.go`, the stream -/

def Dialer.negotiateStreamFeatures (x : Env) (d : Dialer) (c : Conn) (w : World) :
    Res Conn × World :=
  match d.getJIDDomainpart with
  | .panic m => (.panic m, w)
  | .err e => (.err e, w)
  | .ok originDomain =>
    match x.sendInitialStreamHeader originDomain c w with
    | (.panic m, w) => (.panic m, w)
    | (.err e, w) => (.err e, w)
    | (.ok c, w) =>
      match x.negotiateSTARTTLS d c w with
      | (.panic m, w) => (.panic m, w)
      | (.err e, w) => (.err e, w)
      | (.ok c, w) =>
        match d.negotiateInBandRegistration x c w with
        | (.panic m, w) => (.panic m, w)
        | (.err e, w) => (.err e, w)
        | (.ok (), w) => x.negotiateSASL d c w

/-- The bind request of line 106: the format string with `NsBind` filled in. -/
def bindRequest (nsBind : String) : String :=
  "<iq type='set' id='bind_1'><bind xmlns='" ++ nsBind ++ "'/></iq>"

/-- The session request of line 116: the format string with the origin domain
and `NsSession` filled in. -/
def sessionRequest (originDomain nsSession : String) : String :=
  "<iq to='" ++ originDomain ++ "' type='set' id='sess_1'><session xmlns='" ++ nsSession
    ++ "'/></iq>"

/-- Lines 86 to 88 of `setupStream`: the dialer after the conditional
assignment to `d.Config.TrustedAddress`. -/
def Dialer.markTrusted (d : Dialer) : Dialer :=
  if d.hasCustomServer then { d with Config := { d.Config with TrustedAddress := true } } else d

/-- Lines 90 to 92 of `setupStream`: the new connection with the configuration
of the dialer copied into it. -/
def Dialer.freshConn (d : Dialer) (x : Env) : Conn :=
  { x.newConn with config := d.Config }

/-- The function `setupStream`. The assignment to `d.Config.TrustedAddress` is
visible to everything that runs after it; `bindTransport` only binds the
streams of `c` to the connection and performs no input or output. -/
def Dialer.setupStream (x : Env) (d : Dialer) (w : World) : Res Conn × World :=
  let d : Dialer := d.markTrusted
  let c : Conn := d.freshConn x
  match d.getJIDDomainpart with
  | .panic m => (.panic m, w)
  | .err e => (.err e, w)
  | .ok originDomain =>
    match d.negotiateStreamFeatures x c w with
    | (.panic m, w) => (.panic m, w)
    | (.err e, w) => (.err e, w)
    | (.ok c, w) =>
      let w := w.emit (.go .watchKeepAlive)
      let features := c.features
      let w := w.emit (.write .out (bindRequest x.NsBind))
      match DecodeElement ClientIQ.zero w with
      | (.error e, w) => (.err (.new ("unmarshal <iq>: " ++ e)), w)
      | (.ok iq, w) =>
        let c : Conn := { c with jid := iq.Bind.Jid }
        let w := w.emit (.setJid iq.Bind.Jid)
        match features.Session with
        | some _ =>
          let w := w.emit (.write .out (sessionRequest originDomain x.NsSession))
          match DecodeElement iq w with
          | (.error e, w) => (.err (.new ("xmpp: unmarshal <iq>: " ++ e)), w)
          | (.ok iq, w) =>
            if iq.Typ ≠ "result" then (.err (.new "xmpp: session establishment failed"), w)
            else (.ok c, w.emit (.go .watchPings))
        | none => (.ok c, w.emit (.go .watchPings))

def Dialer.Dial (x : Env) (d : Dialer) (w : World) : Res Conn × World :=
  match x.newTCPConn d w with
  | (.panic m, w) => (.panic m, w)
  | (.err e, w) => (.err e, w)
  | (.ok (), w) => d.setupStream x w

def Dialer.RegisterAccount (x : Env) (d : Dialer) (formCallback : Option FormCallback)
    (w : World) : Res Conn × World :=
  let d : Dialer := { d with Config := { d.Config with CreateCallback := formCallback } }
  d.Dial x w

/-! ## Assumptions on the collaborators -/

/-- The negotiation steps defined outside the two files leave the
configuration held by the connection as it is. -/
def Env.KeepsConfig (x : Env) : Prop :=
  (∀ o c w c1, (x.sendInitialStreamHeader o c w).1 = .ok c1 → c1.config = c.config) ∧
  (∀ d c w c1, (x.negotiateSTARTTLS d c w).1 = .ok c1 → c1.config = c.config) ∧
  (∀ d c w c1, (x.negotiateSASL d c w).1 = .ok c1 → c1.config = c.config)

/-- The negotiation steps defined outside the two files start no liveness
task: a `go` event in the trace they leave was in the trace they found. -/
def Env.StartsNoTask (x : Env) : Prop :=
  (∀ o c w t, Event.go t ∈ (x.sendInitialStreamHeader o c w).2.trace → Event.go t ∈ w.trace) ∧
  (∀ d c w t, Event.go t ∈ (x.negotiateSTARTTLS d c w).2.trace → Event.go t ∈ w.trace) ∧
  (∀ d c w t, Event.go t ∈ (x.negotiateSASL d c w).2.trace → Event.go t ∈ w.trace)

/-! ## Sample collaborators and transports -/

/-- Collaborators for the examples: the stream header step records the given
features, the other negotiation steps succeed without effect, the form handler
returns the form it is given (with the given error), and the registration
query `form` carries a structured form, `legacy` the two legacy fields, and
anything else does not decode. -/
def sampleEnv (features : streamFeatures) (formError : Option GoError) : Env where
  NsBind := "urn:ietf:params:xml:ns:xmpp-bind"
  NsSession := "urn:ietf:params:xml:ns:xmpp-session"
  newConn := ⟨⟨false, none⟩, ⟨none, none⟩, ""⟩
  newTCPConn := fun _ w => (.ok (), w)
  sendInitialStreamHeader := fun _ c w => (.ok { c with features := features }, w)
  negotiateSTARTTLS := fun _ c w => (.ok c, w)
  negotiateSASL := fun _ c w => (.ok c, w)
  processForm := fun f _ _ =>
    match formError with
    | none => (some f, none)
    | some e => (none, some e)
  Encode := fun r =>
    match r with
    | some f => (f.content, none)
    | none => ("", none)
  decodeRegister := fun q =>
    if q = "form" then .ok ⟨none, none, ⟨"form", "<x/>"⟩, []⟩
    else if q = "legacy" then .ok ⟨some "", some "", ⟨"", ""⟩, []⟩
    else .error (.passed "EOF")

/-- A transport on which the given stanzas arrive, each decoding without
error whatever the target held before, and nothing has happened yet. -/
def arriving (stanzas : List ClientIQ) : World :=
  ⟨stanzas.map (fun iq _ => Except.ok iq), []⟩

/-- A connection with a form-handling capability configured and in-band
registration advertised. -/
def registeringConn : Conn :=
  ⟨⟨false, some ⟨0⟩⟩, ⟨some ⟨"register"⟩, none⟩, ""⟩

/-! ## Lemmas on splitting -/

theorem cutAt_none (sep : Char) (l : List Char) (h : sep ∉ l) : cutAt sep l = none := by
  induction l with
  | nil => rfl
  | cons c cs ih =>
    have hc : c ≠ sep := fun e => h (by simp [e])
    have hcs : sep ∉ cs := fun m => h (List.mem_cons_of_mem _ m)
    simp [cutAt, hc, ih hcs]

theorem cutAt_append (sep : Char) (l r : List Char) (h : sep ∉ l) :
    cutAt sep (l ++ sep :: r) = some (l, r) := by
  induction l with
  | nil => simp [cutAt]
  | cons c cs ih =>
    have hc : c ≠ sep := fun e => h (by simp [e])
    have hcs : sep ∉ cs := fun m => h (List.mem_cons_of_mem _ m)
    simp [cutAt, hc, ih hcs]

theorem SplitN2_of_sep (l r : String) (sep : Char) (h : sep ∉ l.data) :
    SplitN2 (l ++ String.singleton sep ++ r) sep = [l, r] := by
  have : (l ++ String.singleton sep ++ r).data = l.data ++ sep :: r.data := by
    simp [String.data_append, String.singleton]
  simp [SplitN2, this, cutAt_append sep l.data r.data h]

theorem SplitN2_no_sep (s : String) (sep : Char) (h : sep ∉ s.data) :
    SplitN2 s sep = [s] := by
  simp [SplitN2, cutAt_none sep s.data h]

theorem getJIDDomainpart_of_sep (d : Dialer) (l dom : String)
    (hj : d.JID = l ++ "@" ++ dom) (hl : '@' ∉ l.data) :
    d.getJIDDomainpart = .ok dom := by
  have h := SplitN2_of_sep l dom '@' hl
  have e : String.singleton '@' = "@" := rfl
  rw [e] at h
  simp [Dialer.getJIDDomainpart, hj, h, index]

theorem getJIDDomainpart_no_sep (d : Dialer) (h : '@' ∉ d.JID.data) :
    d.getJIDDomainpart = .panic "runtime error: index out of range" := by
  simp [Dialer.getJIDDomainpart, SplitN2_no_sep d.JID '@' h, index]

/-! ## Server resolution -/

/-- C2, as stated, fails: for the JID `a@::1`, which has exactly one `@` and
no server override, `GetServer` returns `[::1]:5222`, not the domain part
followed by `:5222`. -/
theorem GetServer_domain_port_counterexample :
    ¬ (∀ (d : Dialer) (l dom : String), d.ServerAddress = "" → d.JID = l ++ "@" ++ dom →
        '@' ∉ l.data → '@' ∉ dom.data → d.GetServer = .ok (dom ++ ":5222")) := by
  intro h
  have h1 := h ⟨"a@::1", "", "", ⟨false, none⟩⟩ "a" "::1" rfl rfl (by decide) (by decide)
  revert h1
  decide

/-- C2, amended: with no server override and a JID `l@dom` with exactly one
`@`, `GetServer` returns `dom:5222` when the domain part has no colon, and
`[dom]:5222` when it has one. -/
theorem GetServer_fallback (d : Dialer) (l dom : String) (h0 : d.ServerAddress = "")
    (hj : d.JID = l ++ "@" ++ dom) (hl : '@' ∉ l.data) (_hd : '@' ∉ dom.data) :
    (':' ∉ dom.data → d.GetServer = .ok (dom ++ ":5222")) ∧
    (':' ∈ dom.data → d.GetServer = .ok ("[" ++ dom ++ "]:5222")) := by
  have hp := getJIDDomainpart_of_sep d l dom hj hl
  have e1 : dom ++ ":" ++ "5222" = dom ++ ":5222" := by
    rw [String.append_assoc]; rfl
  have e2 : "[" ++ dom ++ "]:" ++ "5222" = "[" ++ dom ++ "]:5222" := by
    rw [String.append_assoc ("[" ++ dom)]; rfl
  constructor <;> intro hc <;>
    simp [Dialer.GetServer, Dialer.hasCustomServer, h0, Dialer.getFallbackServer, hp,
      JoinHostPort, hc, e1, e2]

theorem GetServer_fallback_witness :
    Dialer.GetServer ⟨"alice@example.com", "secret", "", ⟨false, none⟩⟩
        = .ok "example.com:5222" ∧
    Dialer.GetServer ⟨"alice@[::1]:5269", "secret", "", ⟨false, none⟩⟩
        = .ok "[[::1]:5269]:5222" :=
  ⟨(GetServer_fallback ⟨"alice@example.com", "secret", "", ⟨false, none⟩⟩ "alice" "example.com"
      rfl rfl (by decide) (by decide)).1 (by decide),
   (GetServer_fallback ⟨"alice@[::1]:5269", "secret", "", ⟨false, none⟩⟩ "alice" "[::1]:5269"
      rfl rfl (by decide) (by decide)).2 (by decide)⟩

/-! ## A JID without separator -/

/-- C3, the code at the failing input: for the JID `alice`, which has no `@`,
the domain-part extraction indexes past the end of the split result, and
`setupStream` panics there, before any input or output, instead of returning
an error; the same holds with a server override. -/
theorem setupStream_no_separator_panics (x : Env) (w : World) (server : String) (cfg : Config) :
    SplitN2 "alice" '@' = ["alice"] ∧
    Dialer.getJIDDomainpart ⟨"alice", "secret", server, cfg⟩
      = .panic "runtime error: index out of range" ∧
    (Dialer.setupStream x ⟨"alice", "secret", server, cfg⟩ w).1
      = .panic "runtime error: index out of range" ∧
    (Dialer.setupStream x ⟨"alice", "secret", server, cfg⟩ w).2.trace = w.trace := by
  have hs : SplitN2 "alice" '@' = ["alice"] := by decide
  have hp : ∀ d : Dialer, d.JID = "alice" →
      d.getJIDDomainpart = .panic "runtime error: index out of range" := by
    intro d hd
    simp [Dialer.getJIDDomainpart, hd, hs, index]
  refine ⟨hs, hp _ rfl, ?_, ?_⟩ <;>
    · unfold Dialer.setupStream
      by_cases hc : Dialer.hasCustomServer ⟨"alice", "secret", server, cfg⟩ <;>
        simp [Dialer.markTrusted, hc, hp]

/-! ## Lemmas on the transport -/

theorem reply_tail (i : List DecodeStep) (t : List Event) (w : World) (n : Nat)
    (iq : ClientIQ) (h : i = w.input.tail) :
    World.reply ⟨i, t⟩ n iq = w.reply (n + 1) iq := by
  subst h
  cases hw : w.input with
  | nil => simp [World.reply, hw]
  | cons f rest => simp [World.reply, hw]

@[simp] theorem emit_input (w : World) (e : Event) : (w.emit e).input = w.input := rfl

@[simp] theorem emit_trace (w : World) (e : Event) : (w.emit e).trace = w.trace ++ [e] := rfl

@[simp] theorem reply_emit (w : World) (e : Event) (n : Nat) (iq : ClientIQ) :
    (w.emit e).reply n iq = w.reply n iq := rfl

@[simp] theorem DecodeElement_fst (iq : ClientIQ) (w : World) :
    (DecodeElement iq w).1 = w.reply 0 iq := rfl

@[simp] theorem DecodeElement_trace (iq : ClientIQ) (w : World) :
    (DecodeElement iq w).2.trace = w.trace ++ [.decode] := rfl

@[simp] theorem DecodeElement_reply (iq iq' : ClientIQ) (w : World) (n : Nat) :
    (DecodeElement iq w).2.reply n iq' = w.reply (n + 1) iq' :=
  reply_tail _ _ w n iq' rfl

/-! ## Lemmas on registration -/

theorem awaitFinalReply_ok (w : World) (iq2 : ClientIQ)
    (h : w.reply 0 ClientIQ.zero = .ok iq2) :
    awaitFinalReply w =
      (if iq2.Typ = "error" then
        if iq2.Error.Code = "409" then Res.err GoError.ErrUsernameConlict
        else if iq2.Error.Code = "406" then Res.err GoError.ErrMissingRequiredRegistrationInfo
        else Res.err GoError.ErrRegistrationFailed
      else Res.ok (), (DecodeElement ClientIQ.zero w).2) := by
  unfold awaitFinalReply
  have e : DecodeElement ClientIQ.zero w = (Except.ok iq2, (DecodeElement ClientIQ.zero w).2) := by
    rw [← h]; rfl
  rw [e]
  simp only
  split_ifs <;> rfl

theorem awaitFinalReply_trace (w : World) :
    (awaitFinalReply w).2.trace = w.trace ++ [.decode] := by
  unfold awaitFinalReply
  have e : DecodeElement ClientIQ.zero w = (w.reply 0 ClientIQ.zero, (DecodeElement ClientIQ.zero w).2) := rfl
  rw [e]
  cases w.reply 0 ClientIQ.zero with
  | error m => simp
  | ok iq => simp only; split_ifs <;> simp

/-- When the first reply decodes to a result whose query decodes, and the
encoder (on the form path) reports no error, `createAccount` ends in
`awaitFinalReply` on a world whose next pending decode is the second one. -/
theorem createAccount_reaches_final (x : Env) (c : Conn) (user password : String) (w : World)
    (callback : FormCallback) (iq : ClientIQ) (register : RegisterQuery)
    (hcb : c.config.CreateCallback = some callback)
    (h1 : w.reply 0 ClientIQ.zero = .ok iq) (ht : iq.Typ = "result")
    (hq : x.decodeRegister iq.Query = .ok register)
    (henc : register.Form.Typ.utf8ByteSize > 0 →
      (x.Encode (x.processForm register.Form register.Datas callback).1).2 = none) :
    ∃ w1 : World, c.createAccount x user password w = awaitFinalReply w1 ∧
      ∀ n iq0, w1.reply n iq0 = w.reply (n + 1) iq0 := by
  unfold Conn.createAccount
  rw [hcb]
  simp only
  have e : ∀ w0 : World, w0.reply 0 ClientIQ.zero = .ok iq →
      DecodeElement ClientIQ.zero w0 = (Except.ok iq, (DecodeElement ClientIQ.zero w0).2) := by
    intro w0 h0; rw [← h0]; rfl
  rw [e _ (by simpa using h1)]
  simp only [ht, ne_eq, not_true_eq_false, if_false, hq]
  by_cases hf : register.Form.Typ.utf8ByteSize > 0
  · have he := henc hf
    rw [if_pos hf]
    rcases hx : x.Encode (x.processForm register.Form register.Datas callback).1 with ⟨bytes, oe⟩
    rw [hx] at he
    simp only at he
    subst he
    exact ⟨_, rfl, by intro n iq0; simp⟩
  · rw [if_neg hf]
    split_ifs
    · exact ⟨_, rfl, by intro n iq0; simp⟩
    · exact ⟨_, rfl, by intro n iq0; simp⟩

theorem createAccount_trace_prefix (x : Env) (c : Conn) (user password : String) (w : World)
    (callback : FormCallback) (hcb : c.config.CreateCallback = some callback) :
    (w.trace ++
      [.write .log "Attempting to create account\n",
       .write .out "<iq type='get' id='create_1'><query xmlns='jabber:iq:register'/></iq>",
       .decode]) <+: (c.createAccount x user password w).2.trace := by
  unfold Conn.createAccount
  rw [hcb]
  simp only [DecodeElement, reply_emit]
  cases h : w.reply 0 ClientIQ.zero with
  | error m => simp
  | ok iq =>
    simp only []
    split_ifs
    · simp
    · cases hq : x.decodeRegister iq.Query with
      | error e => simp
      | ok register =>
        simp only []
        split_ifs
        · rcases hx : x.Encode (x.processForm register.Form register.Datas callback).1
            with ⟨bytes, _ | e⟩ <;> simp [awaitFinalReply_trace]
        · simp [awaitFinalReply_trace]
        · simp [awaitFinalReply_trace]

theorem getJIDLocalpart_ok (d : Dialer) : ∃ user, d.getJIDLocalpart = .ok user := by
  unfold Dialer.getJIDLocalpart SplitN2
  cases cutAt '@' d.JID.data with
  | none => exact ⟨_, rfl⟩
  | some p => exact ⟨_, rfl⟩

/-! ## Registration -/

/-- C1: in `createAccount`, once the final reply has been decoded (the first
reply was a result whose query decoded, the encoder reported no error on the
form path, and the second pending decode gives `iq2`), the result depends on
`iq2` alone: type `error` with code `409` gives `ErrUsernameConlict`, with code
`406` gives `ErrMissingRequiredRegistrationInfo`, with any other code gives
`ErrRegistrationFailed`, and any other type gives success. -/
theorem createAccount_final_reply (x : Env) (c : Conn) (user password : String) (w : World)
    (callback : FormCallback) (iq : ClientIQ) (register : RegisterQuery) (iq2 : ClientIQ)
    (hcb : c.config.CreateCallback = some callback)
    (h1 : w.reply 0 ClientIQ.zero = .ok iq) (ht : iq.Typ = "result")
    (hq : x.decodeRegister iq.Query = .ok register)
    (henc : register.Form.Typ.utf8ByteSize > 0 →
      (x.Encode (x.processForm register.Form register.Datas callback).1).2 = none)
    (h2 : w.reply 1 ClientIQ.zero = .ok iq2) :
    (iq2.Typ = "error" → iq2.Error.Code = "409" →
      (c.createAccount x user password w).1 = .err .ErrUsernameConlict) ∧
    (iq2.Typ = "error" → iq2.Error.Code = "406" →
      (c.createAccount x user password w).1 = .err .ErrMissingRequiredRegistrationInfo) ∧
    (iq2.Typ = "error" → iq2.Error.Code ≠ "409" → iq2.Error.Code ≠ "406" →
      (c.createAccount x user password w).1 = .err .ErrRegistrationFailed) ∧
    (iq2.Typ ≠ "error" → (c.createAccount x user password w).1 = .ok ()) := by
  obtain ⟨w1, hw1, hr⟩ :=
    createAccount_reaches_final x c user password w callback iq register hcb h1 ht hq henc
  have h := awaitFinalReply_ok w1 iq2 (by rw [hr]; exact h2)
  rw [hw1, h]
  refine ⟨?_, ?_, ?_, ?_⟩
  · intro a b; simp [a, b]
  · intro a b; simp [a, b]
  · intro a b b'; simp [a, b, b']
  · intro a; simp [a]

theorem createAccount_final_reply_witness :
    (registeringConn.createAccount (sampleEnv ⟨none, none⟩ none) "alice" "secret"
        (arriving [⟨"result", ⟨""⟩, ⟨""⟩, "legacy"⟩, ⟨"error", ⟨"409"⟩, ⟨""⟩, ""⟩])).1
      = .err .ErrUsernameConlict ∧
    (registeringConn.createAccount (sampleEnv ⟨none, none⟩ none) "alice" "secret"
        (arriving [⟨"result", ⟨""⟩, ⟨""⟩, "form"⟩, ⟨"error", ⟨"406"⟩, ⟨""⟩, ""⟩])).1
      = .err .ErrMissingRequiredRegistrationInfo ∧
    (registeringConn.createAccount (sampleEnv ⟨none, none⟩ none) "alice" "secret"
        (arriving [⟨"result", ⟨""⟩, ⟨""⟩, "form"⟩, ⟨"error", ⟨""⟩, ⟨""⟩, ""⟩])).1
      = .err .ErrRegistrationFailed ∧
    (registeringConn.createAccount (sampleEnv ⟨none, none⟩ none) "alice" "secret"
        (arriving [⟨"result", ⟨""⟩, ⟨""⟩, "legacy"⟩, ⟨"result", ⟨""⟩, ⟨""⟩, ""⟩])).1
      = .ok () :=
  ⟨(createAccount_final_reply (sampleEnv ⟨none, none⟩ none) registeringConn "alice" "secret"
      (arriving [⟨"result", ⟨""⟩, ⟨""⟩, "legacy"⟩, ⟨"error", ⟨"409"⟩, ⟨""⟩, ""⟩])
      ⟨0⟩ ⟨"result", ⟨""⟩, ⟨""⟩, "legacy"⟩ ⟨some "", some "", ⟨"", ""⟩, []⟩
      ⟨"error", ⟨"409"⟩, ⟨""⟩, ""⟩ rfl rfl rfl rfl (fun h => absurd h (by decide))
      rfl).1 rfl rfl,
   (createAccount_final_reply (sampleEnv ⟨none, none⟩ none) registeringConn "alice" "secret"
      (arriving [⟨"result", ⟨""⟩, ⟨""⟩, "form"⟩, ⟨"error", ⟨"406"⟩, ⟨""⟩, ""⟩])
      ⟨0⟩ ⟨"result", ⟨""⟩, ⟨""⟩, "form"⟩ ⟨none, none, ⟨"form", "<x/>"⟩, []⟩
      ⟨"error", ⟨"406"⟩, ⟨""⟩, ""⟩ rfl rfl rfl rfl (fun _ => rfl)
      rfl).2.1 rfl rfl,
   (createAccount_final_reply (sampleEnv ⟨none, none⟩ none) registeringConn "alice" "secret"
      (arriving [⟨"result", ⟨""⟩, ⟨""⟩, "form"⟩, ⟨"error", ⟨""⟩, ⟨""⟩, ""⟩])
      ⟨0⟩ ⟨"result", ⟨""⟩, ⟨""⟩, "form"⟩ ⟨none, none, ⟨"form", "<x/>"⟩, []⟩
      ⟨"error", ⟨""⟩, ⟨""⟩, ""⟩ rfl rfl rfl rfl (fun _ => rfl)
      rfl).2.2.1 rfl (by decide) (by decide),
   (createAccount_final_reply (sampleEnv ⟨none, none⟩ none) registeringConn "alice" "secret"
      (arriving [⟨"result", ⟨""⟩, ⟨""⟩, "legacy"⟩, ⟨"result", ⟨""⟩, ⟨""⟩, ""⟩])
      ⟨0⟩ ⟨"result", ⟨""⟩, ⟨""⟩, "legacy"⟩ ⟨some "", some "", ⟨"", ""⟩, []⟩
      ⟨"result", ⟨""⟩, ⟨""⟩, ""⟩ rfl rfl rfl rfl (fun h => absurd h (by decide))
      rfl).2.2.2 (by decide)⟩

/-- C7: in `createAccount` with a form-handling capability configured, when
the reply to the registration-fields request does not decode (the decoder
reports an error for the iq, or the registration query inside the decoded iq
does not decode), the call returns an error, and what it did on the transport
is: the log line, the one `get` request `create_1`, and one decode; no `set`
request was written. -/
theorem createAccount_decode_failure (x : Env) (c : Conn) (user password : String) (w : World)
    (callback : FormCallback) (hcb : c.config.CreateCallback = some callback)
    (hfail : (∃ m, w.reply 0 ClientIQ.zero = .error m) ∨
      (∃ iq e, w.reply 0 ClientIQ.zero = .ok iq ∧ x.decodeRegister iq.Query = .error e)) :
    (c.createAccount x user password w).1.isErr = true ∧
    (c.createAccount x user password w).2.trace = w.trace ++
      [.write .log "Attempting to create account\n",
       .write .out "<iq type='get' id='create_1'><query xmlns='jabber:iq:register'/></iq>",
       .decode] := by
  unfold Conn.createAccount
  rw [hcb]
  simp only [DecodeElement, reply_emit]
  rcases hfail with ⟨m, hm⟩ | ⟨iq, e, hiq, he⟩
  · rw [hm]; simp [Res.isErr]
  · rw [hiq]
    simp only [he]
    split_ifs <;> simp [Res.isErr]

theorem createAccount_decode_failure_witness :
    ((registeringConn.createAccount (sampleEnv ⟨none, none⟩ none) "alice" "secret"
        (arriving [])).1.isErr = true ∧
     (registeringConn.createAccount (sampleEnv ⟨none, none⟩ none) "alice" "secret"
        (arriving [])).2.trace = [] ++
      [.write .log "Attempting to create account\n",
       .write .out "<iq type='get' id='create_1'><query xmlns='jabber:iq:register'/></iq>",
       .decode]) ∧
    ((registeringConn.createAccount (sampleEnv ⟨none, none⟩ none) "alice" "secret"
        (arriving [⟨"result", ⟨""⟩, ⟨""⟩, "<garbled"⟩])).1.isErr = true ∧
     (registeringConn.createAccount (sampleEnv ⟨none, none⟩ none) "alice" "secret"
        (arriving [⟨"result", ⟨""⟩, ⟨""⟩, "<garbled"⟩])).2.trace = [] ++
      [.write .log "Attempting to create account\n",
       .write .out "<iq type='get' id='create_1'><query xmlns='jabber:iq:register'/></iq>",
       .decode]) :=
  ⟨createAccount_decode_failure (sampleEnv ⟨none, none⟩ none) registeringConn "alice" "secret"
      (arriving []) ⟨0⟩ rfl (Or.inl ⟨"EOF", rfl⟩),
   createAccount_decode_failure (sampleEnv ⟨none, none⟩ none) registeringConn "alice" "secret"
      (arriving [⟨"result", ⟨""⟩, ⟨""⟩, "<garbled"⟩]) ⟨0⟩ rfl
      (Or.inr ⟨⟨"result", ⟨""⟩, ⟨""⟩, "<garbled"⟩, .passed "EOF", rfl, rfl⟩)⟩

/-- C8: the Register step is active exactly when a form-handling capability
is configured and the features advertise in-band registration. In every other
case `negotiateInBandRegistration` returns success and leaves the transport as
it found it (nothing written, nothing read); when both hold it writes the
`get` request and reads a reply; and `createAccount` with no capability
configured returns success and leaves the transport as it found it. -/
theorem negotiateInBandRegistration_active_iff (x : Env) (d : Dialer) (c : Conn) (w : World) :
    (¬ (c.config.CreateCallback.isSome = true ∧ c.features.InBandRegistration.isSome = true) →
      d.negotiateInBandRegistration x c w = (.ok (), w)) ∧
    (c.config.CreateCallback.isSome = true → c.features.InBandRegistration.isSome = true →
      (w.trace ++
        [.write .log "Attempting to create account\n",
         .write .out "<iq type='get' id='create_1'><query xmlns='jabber:iq:register'/></iq>",
         .decode]) <+: (d.negotiateInBandRegistration x c w).2.trace) ∧
    (c.config.CreateCallback = none →
      ∀ user password, c.createAccount x user password w = (.ok (), w)) := by
  obtain ⟨u, hu⟩ := getJIDLocalpart_ok d
  refine ⟨?_, ?_, ?_⟩
  · intro h
    unfold Dialer.negotiateInBandRegistration
    cases hf : c.features.InBandRegistration with
    | none => rfl
    | some r =>
      have hc : c.config.CreateCallback = none := by
        cases hcb : c.config.CreateCallback with
        | none => rfl
        | some cb => exact absurd ⟨by simp [hcb], by simp [hf]⟩ h
      simp [hu, Conn.createAccount, hc]
  · intro hcb hf
    obtain ⟨cb, hcb⟩ := Option.isSome_iff_exists.mp hcb
    obtain ⟨r, hr⟩ := Option.isSome_iff_exists.mp hf
    unfold Dialer.negotiateInBandRegistration
    simp only [hr, hu]
    exact createAccount_trace_prefix x c u d.Password w cb hcb
  · intro hc user password
    simp [Conn.createAccount, hc]

theorem negotiateInBandRegistration_active_iff_witness :
    Dialer.negotiateInBandRegistration (sampleEnv ⟨none, none⟩ none)
        ⟨"alice@example.com", "secret", "", ⟨false, some ⟨0⟩⟩⟩
        ⟨⟨false, some ⟨0⟩⟩, ⟨none, none⟩, ""⟩ (arriving [])
      = (.ok (), arriving []) ∧
    ([] ++
        [.write .log "Attempting to create account\n",
         .write .out "<iq type='get' id='create_1'><query xmlns='jabber:iq:register'/></iq>",
         .decode]) <+:
      (Dialer.negotiateInBandRegistration (sampleEnv ⟨none, none⟩ none)
        ⟨"alice@example.com", "secret", "", ⟨false, some ⟨0⟩⟩⟩
        registeringConn (arriving [])).2.trace ∧
    Conn.createAccount (sampleEnv ⟨none, none⟩ none)
        ⟨⟨false, none⟩, ⟨some ⟨"register"⟩, none⟩, ""⟩ "alice" "secret" (arriving [])
      = (.ok (), arriving []) :=
  ⟨(negotiateInBandRegistration_active_iff (sampleEnv ⟨none, none⟩ none)
      ⟨"alice@example.com", "secret", "", ⟨false, some ⟨0⟩⟩⟩
      ⟨⟨false, some ⟨0⟩⟩, ⟨none, none⟩, ""⟩ (arriving [])).1 (by decide),
   (negotiateInBandRegistration_active_iff (sampleEnv ⟨none, none⟩ none)
      ⟨"alice@example.com", "secret", "", ⟨false, some ⟨0⟩⟩⟩
      registeringConn (arriving [])).2.1 rfl rfl,
   (negotiateInBandRegistration_active_iff (sampleEnv ⟨none, none⟩ none)
      ⟨"alice@example.com", "secret", "", ⟨false, some ⟨0⟩⟩⟩
      ⟨⟨false, none⟩, ⟨some ⟨"register"⟩, none⟩, ""⟩ (arriving [])).2.2 rfl "alice" "secret"⟩

/-- C10, the code at the failing input: the form handler reports an error for
the structured form, and `createAccount` still writes the follow-up request
`create_2` around the encoding of the (nil) reply, reads the final reply, and
returns success. The error of `processForm` plays no part in the result at all:
replacing it by nil changes nothing. -/
theorem createAccount_drops_form_error :
    ((sampleEnv ⟨none, none⟩ (some (.new "form rejected"))).processForm
        ⟨"form", "<x/>"⟩ [] ⟨0⟩).2 = some (.new "form rejected") ∧
    (registeringConn.createAccount (sampleEnv ⟨none, none⟩ (some (.new "form rejected")))
        "alice" "secret"
        (arriving [⟨"result", ⟨""⟩, ⟨""⟩, "form"⟩, ⟨"result", ⟨""⟩, ⟨""⟩, ""⟩])).1 = .ok () ∧
    (registeringConn.createAccount (sampleEnv ⟨none, none⟩ (some (.new "form rejected")))
        "alice" "secret"
        (arriving [⟨"result", ⟨""⟩, ⟨""⟩, "form"⟩, ⟨"result", ⟨""⟩, ⟨""⟩, ""⟩])).2.trace =
      [.write .log "Attempting to create account\n",
       .write .out "<iq type='get' id='create_1'><query xmlns='jabber:iq:register'/></iq>",
       .decode,
       .write .rawOut "<iq type='set' id='create_2'><query xmlns='jabber:iq:register'>",
       .write .rawOut "",
       .write .rawOut "</query></iq>",
       .decode] ∧
    (∀ (x : Env) (c : Conn) (user password : String) (w : World),
      c.createAccount x user password w =
        c.createAccount { x with processForm := fun f ds cb => ((x.processForm f ds cb).1, none) }
          user password w) :=
  ⟨rfl, by decide, by decide, fun _ _ _ _ _ => rfl⟩

/-! ## Lemmas on the stream setup -/

@[simp] theorem reply_mk_tail (w : World) (t : List Event) (n : Nat) (iq : ClientIQ) :
    World.reply ⟨w.input.tail, t⟩ n iq = w.reply (n + 1) iq :=
  reply_tail _ _ w n iq rfl

theorem markTrusted_JID (d : Dialer) : d.markTrusted.JID = d.JID := by
  unfold Dialer.markTrusted
  split <;> rfl

theorem markTrusted_getJIDDomainpart (d : Dialer) :
    d.markTrusted.getJIDDomainpart = d.getJIDDomainpart := by
  simp [Dialer.getJIDDomainpart, markTrusted_JID]

/-- The sixth byte tells the two requests apart. -/
theorem sessionRequest_ne_bindRequest (o ns nb : String) :
    sessionRequest o ns ≠ bindRequest nb := by
  intro h
  have h5 := congrArg (fun s : String => s.data[5]?) h
  simp [sessionRequest, bindRequest] at h5

theorem last_split {α : Type} (a : α) (T pre post : List α)
    (h : pre ++ a :: post = T ++ [a]) (hT : a ∉ T) : pre = T ∧ post = [] := by
  induction T generalizing pre with
  | nil =>
    cases pre with
    | nil => simpa using h
    | cons b pre1 =>
      simp at h
  | cons t T ih =>
    cases pre with
    | nil =>
      simp at h
      obtain ⟨rfl, _⟩ := h
      simp at hT
    | cons b pre1 =>
      simp at h
      obtain ⟨rfl, h2⟩ := h
      have hT1 : a ∉ T := fun m => hT (List.mem_cons_of_mem _ m)
      obtain ⟨e1, e2⟩ := ih pre1 (by simpa using h2) hT1
      exact ⟨by rw [e1], e2⟩

/-- What `setupStream` does once the domain part is there and negotiation has
succeeded with connection `c1` on transport `w1`, case by case. -/
theorem setupStream_of_negotiated (x : Env) (d : Dialer) (w : World) (originDomain : String)
    (c1 : Conn) (w1 : World)
    (hd : d.getJIDDomainpart = .ok originDomain)
    (hn : d.markTrusted.negotiateStreamFeatures x (d.markTrusted.freshConn x) w = (.ok c1, w1)) :
    d.setupStream x w =
      match w1.reply 0 ClientIQ.zero with
      | .error m =>
        (.err (.new ("unmarshal <iq>: " ++ m)),
          ⟨w1.input.tail, w1.trace ++
            [.go .watchKeepAlive, .write .out (bindRequest x.NsBind), .decode]⟩)
      | .ok iq =>
        match c1.features.Session with
        | none =>
          (.ok { c1 with jid := iq.Bind.Jid },
            ⟨w1.input.tail, w1.trace ++
              [.go .watchKeepAlive, .write .out (bindRequest x.NsBind), .decode,
               .setJid iq.Bind.Jid, .go .watchPings]⟩)
        | some _ =>
          match w1.reply 1 iq with
          | .error m =>
            (.err (.new ("xmpp: unmarshal <iq>: " ++ m)),
              ⟨w1.input.tail.tail, w1.trace ++
                [.go .watchKeepAlive, .write .out (bindRequest x.NsBind), .decode,
                 .setJid iq.Bind.Jid,
                 .write .out (sessionRequest originDomain x.NsSession), .decode]⟩)
          | .ok iq1 =>
            if iq1.Typ = "result" then
              (.ok { c1 with jid := iq.Bind.Jid },
                ⟨w1.input.tail.tail, w1.trace ++
                  [.go .watchKeepAlive, .write .out (bindRequest x.NsBind), .decode,
                   .setJid iq.Bind.Jid,
                   .write .out (sessionRequest originDomain x.NsSession), .decode,
                   .go .watchPings]⟩)
            else
              (.err (.new "xmpp: session establishment failed"),
                ⟨w1.input.tail.tail, w1.trace ++
                  [.go .watchKeepAlive, .write .out (bindRequest x.NsBind), .decode,
                   .setJid iq.Bind.Jid,
                   .write .out (sessionRequest originDomain x.NsSession), .decode]⟩) := by
  unfold Dialer.setupStream
  simp only [markTrusted_getJIDDomainpart, hd, hn, DecodeElement, reply_emit, emit_input,
    emit_trace]
  cases h0 : w1.reply 0 ClientIQ.zero with
  | error m => simp
  | ok iq =>
    simp only []
    cases hs : c1.features.Session with
    | none => simp [World.emit]
    | some sess =>
      simp only [reply_mk_tail, Nat.zero_add]
      cases h1 : w1.reply 1 iq with
      | error m => simp
      | ok iq1 =>
        simp only []
        by_cases ht : iq1.Typ = "result"
        · simp [ht, World.emit]
        · simp [ht]

/-- When negotiation does not succeed, `setupStream` stops there: it fails and
leaves the transport as negotiation left it. -/
theorem setupStream_of_failed_negotiation (x : Env) (d : Dialer) (w : World)
    (hn : (d.markTrusted.negotiateStreamFeatures x (d.markTrusted.freshConn x) w).1.isOk
      = false) :
    (d.setupStream x w).1.isOk = false ∧
    (d.setupStream x w).2 =
      (d.markTrusted.negotiateStreamFeatures x (d.markTrusted.freshConn x) w).2 := by
  unfold Dialer.setupStream
  cases hd : d.markTrusted.getJIDDomainpart with
  | panic m => simp [Dialer.negotiateStreamFeatures, hd, Res.isOk]
  | err e => simp [Dialer.negotiateStreamFeatures, hd, Res.isOk]
  | ok o =>
    simp only []
    rcases hr : d.markTrusted.negotiateStreamFeatures x (d.markTrusted.freshConn x) w
      with ⟨r, w1⟩
    rw [hr] at hn
    cases r with
    | panic m => simp [Res.isOk, hd]
    | err e => simp [Res.isOk, hd]
    | ok c1 => simp [Res.isOk] at hn

theorem createAccount_no_go (x : Env) (c : Conn) (user password : String) (w : World)
    (t : Goroutine) (h : Event.go t ∈ (c.createAccount x user password w).2.trace) :
    Event.go t ∈ w.trace := by
  revert h
  unfold Conn.createAccount
  cases hcb : c.config.CreateCallback with
  | none => simp
  | some callback =>
    simp only [DecodeElement, reply_emit]
    cases h0 : w.reply 0 ClientIQ.zero with
    | error m => simp
    | ok iq =>
      simp only []
      split_ifs
      · simp
      · cases hq : x.decodeRegister iq.Query with
        | error e => simp
        | ok register =>
          simp only []
          split_ifs
          · rcases hx : x.Encode (x.processForm register.Form register.Datas callback).1
              with ⟨bytes, _ | e⟩ <;> simp [awaitFinalReply_trace]
          · simp [awaitFinalReply_trace]
          · simp [awaitFinalReply_trace]

theorem negotiateInBandRegistration_no_go (x : Env) (d : Dialer) (c : Conn) (w : World)
    (t : Goroutine) (h : Event.go t ∈ (d.negotiateInBandRegistration x c w).2.trace) :
    Event.go t ∈ w.trace := by
  obtain ⟨u, hu⟩ := getJIDLocalpart_ok d
  unfold Dialer.negotiateInBandRegistration at h
  cases hf : c.features.InBandRegistration with
  | none => simpa [hf] using h
  | some r =>
    simp only [hf, hu] at h
    exact createAccount_no_go x c u d.Password w t h

theorem negotiateStreamFeatures_no_go (x : Env) (d : Dialer) (c : Conn) (w : World)
    (t : Goroutine) (hx : x.StartsNoTask)
    (h : Event.go t ∈ (d.negotiateStreamFeatures x c w).2.trace) : Event.go t ∈ w.trace := by
  obtain ⟨h1, h2, h3⟩ := hx
  unfold Dialer.negotiateStreamFeatures at h
  cases hd : d.getJIDDomainpart with
  | panic m => simpa [hd] using h
  | err e => simpa [hd] using h
  | ok o =>
    simp only [hd] at h
    have s1 := h1 o c w t
    rcases hs : x.sendInitialStreamHeader o c w with ⟨r1, w1⟩
    rw [hs] at h s1
    cases r1 with
    | panic m => exact s1 h
    | err e => exact s1 h
    | ok c1 =>
      simp only [] at h
      have s2 := h2 d c1 w1 t
      rcases ht : x.negotiateSTARTTLS d c1 w1 with ⟨r2, w2⟩
      rw [ht] at h s2
      cases r2 with
      | panic m => exact s1 (s2 h)
      | err e => exact s1 (s2 h)
      | ok c2 =>
        simp only [] at h
        have s3 := negotiateInBandRegistration_no_go x d c2 w2 t
        rcases hi : d.negotiateInBandRegistration x c2 w2 with ⟨r3, w3⟩
        rw [hi] at h s3
        cases r3 with
        | panic m => exact s1 (s2 (s3 h))
        | err e => exact s1 (s2 (s3 h))
        | ok u => exact s1 (s2 (s3 (h3 d c2 w3 t h)))

theorem negotiateStreamFeatures_keeps_config (x : Env) (d : Dialer) (c : Conn) (w : World)
    (c1 : Conn) (hx : x.KeepsConfig)
    (h : (d.negotiateStreamFeatures x c w).1 = .ok c1) : c1.config = c.config := by
  obtain ⟨h1, h2, h3⟩ := hx
  unfold Dialer.negotiateStreamFeatures at h
  cases hd : d.getJIDDomainpart with
  | panic m => simp [hd] at h
  | err e => simp [hd] at h
  | ok o =>
    simp only [hd] at h
    have s1 := h1 o c w
    rcases hs : x.sendInitialStreamHeader o c w with ⟨r1, w1⟩
    rw [hs] at h s1
    cases r1 with
    | panic m => simp at h
    | err e => simp at h
    | ok a1 =>
      simp only [] at h
      have s2 := h2 d a1 w1
      rcases ht : x.negotiateSTARTTLS d a1 w1 with ⟨r2, w2⟩
      rw [ht] at h s2
      cases r2 with
      | panic m => simp at h
      | err e => simp at h
      | ok a2 =>
        simp only [] at h
        rcases hi : d.negotiateInBandRegistration x a2 w2 with ⟨r3, w3⟩
        rw [hi] at h
        cases r3 with
        | panic m => simp at h
        | err e => simp at h
        | ok u =>
          simp only [] at h
          rw [h3 d a2 w3 c1 h, s2 a2 rfl, s1 a1 rfl]

theorem sampleEnv_KeepsConfig (f : streamFeatures) (e : Option GoError) :
    (sampleEnv f e).KeepsConfig := by
  refine ⟨?_, ?_, ?_⟩
  · intro o c w c1 h
    simp [sampleEnv] at h
    rw [← h]
  · intro d c w c1 h
    simp [sampleEnv] at h
    rw [← h]
  · intro d c w c1 h
    simp [sampleEnv] at h
    rw [← h]

theorem sampleEnv_StartsNoTask (f : streamFeatures) (e : Option GoError) :
    (sampleEnv f e).StartsNoTask :=
  ⟨fun _ _ _ _ h => h, fun _ _ _ _ h => h, fun _ _ _ _ h => h⟩

theorem negotiateStreamFeatures_ok_domain (x : Env) (d : Dialer) (c : Conn) (w : World)
    (c1 : Conn) (h : (d.negotiateStreamFeatures x c w).1 = .ok c1) :
    ∃ o, d.getJIDDomainpart = .ok o := by
  unfold Dialer.negotiateStreamFeatures at h
  cases hd : d.getJIDDomainpart with
  | panic m => simp [hd] at h
  | err e => simp [hd] at h
  | ok o => exact ⟨o, rfl⟩

/-- The events of `setupStream` after a successful negotiation: the keepalive
task, the bind request and one decode, and then either a failure with no
further task, or the assignment of the jid, possibly the session exchange, and
the ping task last. -/
theorem setupStream_shape (x : Env) (d : Dialer) (w : World) (originDomain : String)
    (c1 : Conn) (w1 : World)
    (hd : d.getJIDDomainpart = .ok originDomain)
    (hn : d.markTrusted.negotiateStreamFeatures x (d.markTrusted.freshConn x) w = (.ok c1, w1)) :
    ∃ own : List Event, (d.setupStream x w).2.trace = w1.trace ++
        [.go .watchKeepAlive, .write .out (bindRequest x.NsBind), .decode] ++ own ∧
      (((d.setupStream x w).1.isOk = false ∧ ∀ t, Event.go t ∉ own) ∨
       (∃ (iq : ClientIQ) (mid : List Event),
          (d.setupStream x w).1 = .ok { c1 with jid := iq.Bind.Jid } ∧
          own = Event.setJid iq.Bind.Jid :: mid ++ [Event.go .watchPings] ∧
          ∀ t, Event.go t ∉ mid)) := by
  rw [setupStream_of_negotiated x d w originDomain c1 w1 hd hn]
  cases h0 : w1.reply 0 ClientIQ.zero with
  | error m => exact ⟨[], by simp, Or.inl ⟨rfl, by simp⟩⟩
  | ok iq =>
    simp only []
    cases hs : c1.features.Session with
    | none =>
      exact ⟨[.setJid iq.Bind.Jid, .go .watchPings], by simp,
        Or.inr ⟨iq, [], rfl, by simp, by simp⟩⟩
    | some sess =>
      simp only []
      cases h1 : w1.reply 1 iq with
      | error m =>
        exact ⟨[.setJid iq.Bind.Jid,
          .write .out (sessionRequest originDomain x.NsSession), .decode], by simp,
          Or.inl ⟨rfl, by simp⟩⟩
      | ok iq1 =>
        simp only []
        by_cases ht : iq1.Typ = "result"
        · rw [if_pos ht]
          exact ⟨[.setJid iq.Bind.Jid,
            .write .out (sessionRequest originDomain x.NsSession), .decode, .go .watchPings],
            by simp,
            Or.inr ⟨iq, [.write .out (sessionRequest originDomain x.NsSession), .decode],
              rfl, by simp, by simp⟩⟩
        · rw [if_neg ht]
          exact ⟨[.setJid iq.Bind.Jid,
            .write .out (sessionRequest originDomain x.NsSession), .decode], by simp,
            Or.inl ⟨rfl, by simp⟩⟩

/-! ## Resource binding -/

/-- C4, the code at the failing input: the reply to the bind request decodes
to an iq of type `error` with no bind jid, the features declare no session, and
`setupStream` still records the (empty) jid, starts the ping task and returns
the connection with a nil error. -/
theorem setupStream_accepts_error_bind_reply :
    (Dialer.setupStream (sampleEnv ⟨none, none⟩ none)
        ⟨"alice@example.com", "secret", "", ⟨false, none⟩⟩
        (arriving [⟨"error", ⟨"400"⟩, ⟨""⟩, ""⟩])).1
      = .ok ⟨⟨false, none⟩, ⟨none, none⟩, ""⟩ ∧
    (Dialer.setupStream (sampleEnv ⟨none, none⟩ none)
        ⟨"alice@example.com", "secret", "", ⟨false, none⟩⟩
        (arriving [⟨"error", ⟨"400"⟩, ⟨""⟩, ""⟩])).2.trace
      = [.go .watchKeepAlive,
         .write .out "<iq type='set' id='bind_1'><bind xmlns='urn:ietf:params:xml:ns:xmpp-bind'/></iq>",
         .decode, .setJid "", .go .watchPings] := by
  constructor <;> decide

/-! ## Session establishment -/

/-- C5, as stated, fails: with the session requirement declared, a session
reply of type `result` (which is not `success`) lets the dial succeed, and a
session reply of type `success` makes it fail with the dedicated error. -/
theorem setupStream_session_success_counterexample :
    ("result" : String) ≠ "success" ∧
    (Dialer.setupStream (sampleEnv ⟨none, some "session"⟩ none)
        ⟨"alice@example.com", "secret", "", ⟨false, none⟩⟩
        (arriving [⟨"result", ⟨""⟩, ⟨"alice@example.com/r"⟩, ""⟩,
                   ⟨"result", ⟨""⟩, ⟨""⟩, ""⟩])).1
      = .ok ⟨⟨false, none⟩, ⟨none, some "session"⟩, "alice@example.com/r"⟩ ∧
    (Dialer.setupStream (sampleEnv ⟨none, some "session"⟩ none)
        ⟨"alice@example.com", "secret", "", ⟨false, none⟩⟩
        (arriving [⟨"result", ⟨""⟩, ⟨"alice@example.com/r"⟩, ""⟩,
                   ⟨"success", ⟨""⟩, ⟨""⟩, ""⟩])).1
      = .err (.new "xmpp: session establishment failed") := by
  refine ⟨by decide, by decide, by decide⟩

/-- C5, amended: in a dial whose negotiation succeeded (with connection `c1`
on transport `w1`) and whose bind reply decoded to `iq`, the session request
is among the events after negotiation exactly when the features of `c1` declare
the session requirement; without the requirement the dial succeeds; with it,
and a session reply that decodes to `iq1`, the dial succeeds when the type of
`iq1` is `result` and fails with `xmpp: session establishment failed` for every
other type. -/
theorem setupStream_session_step (x : Env) (d : Dialer) (w : World) (originDomain : String)
    (c1 : Conn) (w1 : World) (iq : ClientIQ)
    (hd : d.getJIDDomainpart = .ok originDomain)
    (hn : d.markTrusted.negotiateStreamFeatures x (d.markTrusted.freshConn x) w = (.ok c1, w1))
    (hb : w1.reply 0 ClientIQ.zero = .ok iq) :
    (Event.write .out (sessionRequest originDomain x.NsSession) ∈
        (d.setupStream x w).2.trace.drop w1.trace.length ↔ c1.features.Session ≠ none) ∧
    (c1.features.Session = none →
      (d.setupStream x w).1 = .ok { c1 with jid := iq.Bind.Jid }) ∧
    (c1.features.Session ≠ none → ∀ iq1, w1.reply 1 iq = .ok iq1 →
      (iq1.Typ = "result" → (d.setupStream x w).1 = .ok { c1 with jid := iq.Bind.Jid }) ∧
      (iq1.Typ ≠ "result" →
        (d.setupStream x w).1 = .err (.new "xmpp: session establishment failed"))) := by
  have hne := sessionRequest_ne_bindRequest originDomain x.NsSession x.NsBind
  rw [setupStream_of_negotiated x d w originDomain c1 w1 hd hn, hb]
  simp only []
  cases hs : c1.features.Session with
  | none => simp [hne]
  | some sess =>
    simp only []
    refine ⟨?_, by simp, ?_⟩
    · cases h1 : w1.reply 1 iq with
      | error m => simp
      | ok iq1 => simp only []; split_ifs <;> simp
    · intro _ iq1 h1
      rw [h1]
      simp only []
      constructor
      · intro ht; rw [if_pos ht]
      · intro ht; rw [if_neg ht]

theorem setupStream_session_step_witness :
    (Dialer.setupStream (sampleEnv ⟨none, some "session"⟩ none)
        ⟨"alice@example.com", "secret", "", ⟨false, none⟩⟩
        (arriving [⟨"result", ⟨""⟩, ⟨"alice@example.com/r"⟩, ""⟩,
                   ⟨"error", ⟨""⟩, ⟨""⟩, ""⟩])).1
      = .err (.new "xmpp: session establishment failed") ∧
    (Dialer.setupStream (sampleEnv ⟨none, none⟩ none)
        ⟨"alice@example.com", "secret", "", ⟨false, none⟩⟩
        (arriving [⟨"result", ⟨""⟩, ⟨"alice@example.com/r"⟩, ""⟩])).1
      = .ok ⟨⟨false, none⟩, ⟨none, none⟩, "alice@example.com/r"⟩ :=
  ⟨((setupStream_session_step (sampleEnv ⟨none, some "session"⟩ none)
      ⟨"alice@example.com", "secret", "", ⟨false, none⟩⟩
      (arriving [⟨"result", ⟨""⟩, ⟨"alice@example.com/r"⟩, ""⟩, ⟨"error", ⟨""⟩, ⟨""⟩, ""⟩])
      "example.com" ⟨⟨false, none⟩, ⟨none, some "session"⟩, ""⟩
      (arriving [⟨"result", ⟨""⟩, ⟨"alice@example.com/r"⟩, ""⟩, ⟨"error", ⟨""⟩, ⟨""⟩, ""⟩])
      ⟨"result", ⟨""⟩, ⟨"alice@example.com/r"⟩, ""⟩ (by decide) rfl rfl).2.2
        (by decide) ⟨"error", ⟨""⟩, ⟨""⟩, ""⟩ rfl).2 (by decide),
   (setupStream_session_step (sampleEnv ⟨none, none⟩ none)
      ⟨"alice@example.com", "secret", "", ⟨false, none⟩⟩
      (arriving [⟨"result", ⟨""⟩, ⟨"alice@example.com/r"⟩, ""⟩])
      "example.com" ⟨⟨false, none⟩, ⟨none, none⟩, ""⟩
      (arriving [⟨"result", ⟨""⟩, ⟨"alice@example.com/r"⟩, ""⟩])
      ⟨"result", ⟨""⟩, ⟨"alice@example.com/r"⟩, ""⟩ (by decide) rfl rfl).2.1 rfl⟩

/-! ## Liveness tasks -/

/-- C6, as stated, fails: on a transport where the bind reply never arrives the
dial fails at the bind decode, and yet the keepalive task has been started,
before the bind request was even written. -/
theorem setupStream_keepalive_before_bind_counterexample :
    (Dialer.setupStream (sampleEnv ⟨none, none⟩ none)
        ⟨"alice@example.com", "secret", "", ⟨false, none⟩⟩ (arriving [])).1
      = .err (.new "unmarshal <iq>: EOF") ∧
    (Dialer.setupStream (sampleEnv ⟨none, none⟩ none)
        ⟨"alice@example.com", "secret", "", ⟨false, none⟩⟩ (arriving [])).2.trace
      = [.go .watchKeepAlive,
         .write .out "<iq type='set' id='bind_1'><bind xmlns='urn:ietf:params:xml:ns:xmpp-bind'/></iq>",
         .decode] := by
  constructor <;> decide

/-- C6, amended: when the negotiation steps start no task and none was started
before, (1) the ping task `watchPings` is the last event of `setupStream`, it
is started only in a dial that succeeds, and the bind request, the decode of
its reply and the recording of the jid of the returned connection come before
it; (2) a failed dial starts no ping task; (3) a dial whose negotiation fails
starts no liveness task at all; (4) when negotiation succeeds the keepalive
task `watchKeepAlive` is started right after it, before the bind request is
written and its reply decoded. -/
theorem setupStream_liveness_order (x : Env) (d : Dialer) (w : World)
    (hx : x.StartsNoTask) (h0 : ∀ t, Event.go t ∉ w.trace) :
    (∀ pre post, (d.setupStream x w).2.trace = pre ++ Event.go .watchPings :: post →
      post = [] ∧ ∃ (c : Conn) (pre0 pre1 : List Event), (d.setupStream x w).1 = .ok c ∧
        pre = pre0 ++ [.write .out (bindRequest x.NsBind), .decode, .setJid c.jid] ++ pre1) ∧
    ((d.setupStream x w).1.isOk = false → Event.go .watchPings ∉ (d.setupStream x w).2.trace) ∧
    ((d.markTrusted.negotiateStreamFeatures x (d.markTrusted.freshConn x) w).1.isOk = false →
      ∀ t, Event.go t ∉ (d.setupStream x w).2.trace) ∧
    ((d.markTrusted.negotiateStreamFeatures x (d.markTrusted.freshConn x) w).1.isOk = true →
      ∃ post, (d.setupStream x w).2.trace =
        (d.markTrusted.negotiateStreamFeatures x (d.markTrusted.freshConn x) w).2.trace ++
          [.go .watchKeepAlive, .write .out (bindRequest x.NsBind), .decode] ++ post) := by
  have hw1 : ∀ t, Event.go t ∉
      (d.markTrusted.negotiateStreamFeatures x (d.markTrusted.freshConn x) w).2.trace :=
    fun t m => h0 t (negotiateStreamFeatures_no_go x _ _ w t hx m)
  cases hok : (d.markTrusted.negotiateStreamFeatures x (d.markTrusted.freshConn x) w).1.isOk with
  | false =>
    obtain ⟨hf, hw⟩ := setupStream_of_failed_negotiation x d w hok
    have hno : ∀ t, Event.go t ∉ (d.setupStream x w).2.trace := by
      intro t; rw [hw]; exact hw1 t
    refine ⟨?_, fun _ => hno _, fun _ => hno, fun h => absurd h (by simp)⟩
    intro pre post he
    exact absurd (by rw [he]; simp) (hno .watchPings)
  | true =>
    rcases hr : d.markTrusted.negotiateStreamFeatures x (d.markTrusted.freshConn x) w
      with ⟨r, w1⟩
    rw [hr] at hok hw1
    cases r with
    | panic m => simp [Res.isOk] at hok
    | err e => simp [Res.isOk] at hok
    | ok c1 =>
      obtain ⟨o, ho⟩ := negotiateStreamFeatures_ok_domain x d.markTrusted _ w c1
        (by rw [hr])
      rw [markTrusted_getJIDDomainpart] at ho
      obtain ⟨own, htr, hcase⟩ := setupStream_shape x d w o c1 w1 ho hr
      simp only [] at hw1
      refine ⟨?_, ?_, fun h => absurd h (by simp), fun _ => ⟨own, htr⟩⟩
      · intro pre post he
        rcases hcase with ⟨hfail, hown⟩ | ⟨iq, mid, hres, hown, hmid⟩
        · have hm : Event.go .watchPings ∈ (d.setupStream x w).2.trace := by rw [he]; simp
          rw [htr] at hm
          simp at hm
          exact absurd hm (by
            intro h
            rcases h with h | h
            · exact hw1 _ h
            · exact hown _ h)
        · rw [htr, hown] at he
          have he1 : pre ++ Event.go .watchPings :: post =
              (w1.trace ++ [.go .watchKeepAlive, .write .out (bindRequest x.NsBind), .decode,
                .setJid iq.Bind.Jid] ++ mid) ++ [Event.go .watchPings] := by
            rw [← he]; simp
          obtain ⟨e1, e2⟩ := last_split _ _ pre post he1 (by
            simp
            exact ⟨hw1 _, hmid _⟩)
          refine ⟨e2, _, w1.trace ++ [.go .watchKeepAlive], mid, hres, ?_⟩
          rw [e1]; simp
      · intro hfail
        rcases hcase with ⟨_, hown⟩ | ⟨iq, mid, hres, _, _⟩
        · rw [htr]
          simp
          exact ⟨hw1 _, hown _⟩
        · rw [hres] at hfail
          simp [Res.isOk] at hfail

theorem setupStream_liveness_order_witness :
    (∀ t, Event.go t ∉ (arriving [⟨"result", ⟨""⟩, ⟨"alice@example.com/r"⟩, ""⟩]).trace) ∧
    (∀ pre post,
      (Dialer.setupStream (sampleEnv ⟨none, none⟩ none)
        ⟨"alice@example.com", "secret", "", ⟨false, none⟩⟩
        (arriving [⟨"result", ⟨""⟩, ⟨"alice@example.com/r"⟩, ""⟩])).2.trace
        = pre ++ Event.go .watchPings :: post →
      post = [] ∧ ∃ (c : Conn) (pre0 pre1 : List Event),
        (Dialer.setupStream (sampleEnv ⟨none, none⟩ none)
          ⟨"alice@example.com", "secret", "", ⟨false, none⟩⟩
          (arriving [⟨"result", ⟨""⟩, ⟨"alice@example.com/r"⟩, ""⟩])).1 = .ok c ∧
        pre = pre0 ++ [.write .out (bindRequest (sampleEnv ⟨none, none⟩ none).NsBind), .decode,
          .setJid c.jid] ++ pre1) ∧
    (Dialer.setupStream (sampleEnv ⟨none, none⟩ none)
        ⟨"alice@example.com", "secret", "", ⟨false, none⟩⟩
        (arriving [⟨"result", ⟨""⟩, ⟨"alice@example.com/r"⟩, ""⟩])).2.trace
      = [] ++ [.go .watchKeepAlive,
         .write .out "<iq type='set' id='bind_1'><bind xmlns='urn:ietf:params:xml:ns:xmpp-bind'/></iq>",
         .decode] ++ [.setJid "alice@example.com/r", .go .watchPings] :=
  ⟨fun _ h => by simp [arriving] at h,
   (setupStream_liveness_order (sampleEnv ⟨none, none⟩ none)
      ⟨"alice@example.com", "secret", "", ⟨false, none⟩⟩
      (arriving [⟨"result", ⟨""⟩, ⟨"alice@example.com/r"⟩, ""⟩])
      (sampleEnv_StartsNoTask _ _) (fun _ h => by simp [arriving] at h)).1,
   by decide⟩

/-! ## Trust flag -/

/-- C9: when the negotiation steps leave the configuration alone, the
connection returned by `setupStream` has `TrustedAddress` true if the dialer
has a server override, whatever the flag was before, and has the flag as the
dialer had it if there is no override. -/
theorem setupStream_trusted_address (x : Env) (d : Dialer) (w : World) (c : Conn)
    (hx : x.KeepsConfig) (hr : (d.setupStream x w).1 = .ok c) :
    (d.ServerAddress ≠ "" → c.config.TrustedAddress = true) ∧
    (d.ServerAddress = "" → c.config.TrustedAddress = d.Config.TrustedAddress) := by
  have hcfg : c.config = d.markTrusted.Config := by
    cases hok : (d.markTrusted.negotiateStreamFeatures x (d.markTrusted.freshConn x) w).1.isOk with
    | false =>
      obtain ⟨hf, _⟩ := setupStream_of_failed_negotiation x d w hok
      rw [hr] at hf
      simp [Res.isOk] at hf
    | true =>
      rcases hn : d.markTrusted.negotiateStreamFeatures x (d.markTrusted.freshConn x) w
        with ⟨r, w1⟩
      rw [hn] at hok
      cases r with
      | panic m => simp [Res.isOk] at hok
      | err e => simp [Res.isOk] at hok
      | ok c1 =>
        obtain ⟨o, ho⟩ := negotiateStreamFeatures_ok_domain x d.markTrusted _ w c1
          (by rw [hn])
        rw [markTrusted_getJIDDomainpart] at ho
        have hk := negotiateStreamFeatures_keeps_config x d.markTrusted _ w c1 hx (by rw [hn])
        obtain ⟨own, _, hcase⟩ := setupStream_shape x d w o c1 w1 ho hn
        rcases hcase with ⟨hfail, _⟩ | ⟨iq, mid, hres, _, _⟩
        · rw [hr] at hfail
          simp [Res.isOk] at hfail
        · rw [hr] at hres
          cases hres
          exact hk
  rw [hcfg]
  constructor
  · intro h
    simp [Dialer.markTrusted, Dialer.hasCustomServer, h]
  · intro h
    simp [Dialer.markTrusted, Dialer.hasCustomServer, h]

theorem setupStream_trusted_address_witness :
    (Dialer.setupStream (sampleEnv ⟨none, none⟩ none)
        ⟨"alice@example.com", "secret", "xmpp.example.net:5223", ⟨false, none⟩⟩
        (arriving [⟨"result", ⟨""⟩, ⟨"alice@example.com/r"⟩, ""⟩])).1
      = .ok ⟨⟨true, none⟩, ⟨none, none⟩, "alice@example.com/r"⟩ ∧
    (⟨⟨true, none⟩, ⟨none, none⟩, "alice@example.com/r"⟩ : Conn).config.TrustedAddress = true :=
  ⟨by decide,
   (setupStream_trusted_address (sampleEnv ⟨none, none⟩ none)
      ⟨"alice@example.com", "secret", "xmpp.example.net:5223", ⟨false, none⟩⟩
      (arriving [⟨"result", ⟨""⟩, ⟨"alice@example.com/r"⟩, ""⟩])
      ⟨⟨true, none⟩, ⟨none, none⟩, "alice@example.com/r"⟩
      (sampleEnv_KeepsConfig _ _) (by decide)).1 (by decide)⟩

end Coyim
